import Mathlib

/-!
Shallow embedding of `src/checkbox_api.py` (class `CheckboxAPI`), a client
wrapper for the Checkbox fiscal HTTP API.  Python dictionaries that travel as
JSON are modelled by the inductive `JValue`; a Python `dict` input is an
association list `PyDict` with unique keys (first match wins, insertion
appends to the tail, as in CPython).  The HTTP collaborator
(`requests.Session.request` followed by `raise_for_status`) is modelled by
the `Transport` outcome type: either a response was obtained, or an
`HTTPError` without an attached response was raised, or some other
`RequestException` (DNS failure, connection refused, timeout) occurred.
Python exceptions escaping a method are modelled by `Except String`: an
`.error` value means the call raised instead of returning.
-/

/-- JSON-like Python values (the payloads this client builds and receives). -/
inductive JValue where
  | null
  | bool (b : Bool)
  | int (n : Int)
  | num (q : ℚ)
  | str (s : String)
  | arr (xs : List JValue)
  | obj (fields : List (String × JValue))

/-- A Python dict with string keys, as an association list (unique keys). -/
abbrev PyDict := List (String × JValue)

/-- Python `d.get(k)`: the value under the first matching key, else `None`. -/
def dictGet (d : PyDict) (k : String) : Option JValue :=
  match d with
  | [] => none
  | (k', v) :: rest => if k' = k then some v else dictGet rest k

/-- Python `d.get(k, default)`. -/
def dictGetD (d : PyDict) (k : String) (default : JValue) : JValue :=
  (dictGet d k).getD default

/-- Python truthiness of a JSON-like value. -/
def jTruthy : JValue → Bool
  | .null => false
  | .bool b => b
  | .int n => !(n == 0)
  | .num q => !(q == 0)
  | .str s => !(s == "")
  | .arr xs => !xs.isEmpty
  | .obj fs => !fs.isEmpty

/-- Python truthiness of an `Optional[str]`: `None` and `""` are falsy. -/
def strTruthy : Option String → Bool
  | none => false
  | some s => !(s == "")

/-- Python `==` between a possibly-missing value and a string constant:
true exactly when the value is present and is that same string. -/
def jEqStr (j : Option JValue) (s : String) : Bool :=
  match j with
  | some (.str t) => t == s
  | _ => false

/-- Python `float()` applied to a JSON-like value: exact on ints, floats and
bools; `None`, lists and dicts raise `TypeError`.  Strings are kept outside
this model's numeric input space (CPython would parse numeric strings; no
claim exercises a string in a monetary field), so they are mapped to the
`ValueError` a non-numeric string raises. -/
def pyFloat : JValue → Except String ℚ
  | .int n => .ok (n : ℚ)
  | .num q => .ok q
  | .bool b => .ok (if b then 1 else 0)
  | .null => .error "TypeError: float() argument is None"
  | .str _ => .error "ValueError: could not convert string to float"
  | .arr _ => .error "TypeError: float() argument is a list"
  | .obj _ => .error "TypeError: float() argument is a dict"

/-- Python 3 `round()` to the nearest integer, ties to even (banker's
rounding).  The Python source rounds IEEE doubles; here monetary inputs are
exact decimals modelled as rationals, on which the claims' concrete cases
agree with the float computation. -/
def pyRound (q : ℚ) : Int :=
  let f := q.floor
  let frac := q - (f : ℚ)
  if frac < 1/2 then f
  else if 1/2 < frac then f + 1
  else if f % 2 = 0 then f else f + 1

/-- Rendering of a Python value inside an f-string (`f"order_product_{x}"`).
Exact for `None`, `str`, `int` and `bool`; CPython's repr of floats, lists
and dicts is not reproduced (no claim depends on the rendering of the `code`
field for such inputs). -/
def pyStr : JValue → String
  | .null => "None"
  | .str s => s
  | .int n => toString n
  | .bool b => if b then "True" else "False"
  | .num q => toString q
  | .arr _ => "[...]"
  | .obj _ => "{...}"

/-- An HTTP response as seen through `requests`: status code, the JSON value
of the body when `r.json()` succeeds (`none` when the body is not JSON), and
the body text `r.text`. -/
structure HttpResponse where
  status_code : Int
  body : Option JValue
  text : String

/-- Outcome of one attempt by the HTTP collaborator.  `response` means
`session.request` returned a response (on which `raise_for_status` then
raises `HTTPError` exactly when `400 ≤ status < 600`); `httpErrorNoResponse`
is an `HTTPError` whose `e.response` is `None`; `failure` is any other
`requests.exceptions.RequestException` (DNS failure, connection refused,
timeout), carrying `str(e)`. -/
inductive Transport where
  | response (r : HttpResponse)
  | httpErrorNoResponse (msg : String)
  | failure (msg : String)

/-- The uniform result record the client returns.  `error = none` models the
`"error"` key being absent from the returned dict; likewise
`error_description`.  `error_description` is a `JValue` because the code
copies `data["message"]`, which can be any JSON value, into it. -/
structure Result where
  success : Bool
  status : Int
  data : JValue
  error : Option String := none
  error_description : Option JValue := none

/-- The body value the client extracts from a response: the parsed JSON if
the body parses, else a dict containing the raw text (both `_parse` and the
`HTTPError` handler of `_request` compute exactly this). -/
def parsedBody (r : HttpResponse) : JValue :=
  match r.body with
  | some j => j
  | none => .obj [("raw", .str r.text)]

namespace CheckboxAPI

/-- Class constant `CheckboxAPI.discount_value`. -/
def discount_value : String := "VALUE"

/-- Class constant `CheckboxAPI.discount_percent`. -/
def discount_percent : String := "PERCENT"

/-- Class constant `CheckboxAPI.prepayment`. -/
def prepayment : String := "PREPAYMENT"

/-- Class constant `CheckboxAPI.postpaid`. -/
def postpaid : String := "POSTPAID"

/-- Python `d.get("message") or error` on the fields of a dict: the value
under `"message"` when it is present and truthy, else the string `error`. -/
def messageOr (fields : List (String × JValue)) (error : String) : JValue :=
  match dictGet fields "message" with
  | some v => if jTruthy v then v else .str error
  | none => .str error

/-- Embedding of `CheckboxAPI._error`.  `msg = (payload or {}).get("message")
or error`: a falsy payload is replaced by `{}`; calling `.get` on a truthy
non-dict payload raises `AttributeError`, modelled as an `.error` outcome. -/
def _error (status_code : Int) (error : String) (payload : Option JValue) :
    Except String Result :=
  let p : JValue :=
    match payload with
    | some j => if jTruthy j then j else .obj []
    | none => .obj []
  match p with
  | .obj fields =>
    .ok { success := false, status := status_code, error := some error,
          error_description := some (messageOr fields error), data := .obj fields }
  | _ => .error "AttributeError: object has no attribute get"

/-- Embedding of `CheckboxAPI._parse`. -/
def _parse (r : HttpResponse) : Result :=
  { success := decide (200 ≤ r.status_code ∧ r.status_code < 300),
    status := r.status_code,
    data := parsedBody r }

/-- The request a domain operation hands to the HTTP collaborator: method,
endpoint (relative to the versioned API base URL), per-call headers merged
over the session defaults, and the JSON body. -/
structure BuiltRequest where
  method : String
  endpoint : String
  headers : List (String × String)
  body : PyDict

/-- Pre-flight decision of an operation: either a `Result` synthesized
before any network call (`bad`), or a request to actually send (`send`). -/
inductive Dispatch where
  | bad (r : Result)
  | send (req : BuiltRequest)

/-- Embedding of `CheckboxAPI._request`, given the collaborator's outcome
`t` for the issued request.  A returned response with status in `[400,600)`
makes `raise_for_status` raise; the handler re-parses the body
(`parsedBody`) and funnels it through `_error`; `getattr(e.response,
"status_code", 400)` yields 400 when the `HTTPError` has no response. -/
def _request (method endpoint : String) (headers : List (String × String))
    (body : PyDict) (t : Transport) : Except String Result :=
  match t with
  | .response r =>
    if 400 ≤ r.status_code ∧ r.status_code < 600 then
      _error r.status_code "HTTP error" (some (parsedBody r))
    else
      .ok (_parse r)
  | .httpErrorNoResponse msg =>
    _error 400 "HTTP error" (some (.obj [("raw", .str msg)]))
  | .failure msg =>
    _error 400 "Network error" (some (.obj [("detail", .str msg)]))

/-- Run a pre-flight decision: a `bad` result is returned as-is with no
network call; a `send` goes through `_request` with outcome `t`. -/
def runDispatch (t : Transport) : Except String Dispatch → Except String Result
  | .error e => .error e
  | .ok (.bad r) => .ok r
  | .ok (.send req) => _request req.method req.endpoint req.headers req.body t

/-- Embedding of one iteration of the goods loop of
`CheckboxAPI.create_receipt` (lines 143-155): one product dict becomes one
entry of the `goods` list; the price is
`int(round(float(p.get("product_price", 0)) * 100))`. -/
def build_good (p : PyDict) : Except String JValue :=
  match pyFloat (dictGetD p "product_price" (.int 0)) with
  | .error e => .error e
  | .ok price =>
    .ok (.obj [
      ("good", .obj [
        ("code", .str ("order_product_" ++ pyStr ((dictGet p "order_product").getD .null))),
        ("name", (dictGet p "product_name").getD .null),
        ("price", .int (pyRound (price * 100)))]),
      ("quantity", .int 1000),
      ("is_return", .bool false),
      ("is_winnings_payout", .bool false)])

/-- The goods loop of `create_receipt`: the products in order, stopping with
the exception of the first product whose price `float()` conversion
raises. -/
def build_goods : List PyDict → Except String (List JValue)
  | [] => .ok []
  | p :: ps =>
    match build_good p with
    | .error e => .error e
    | .ok g =>
      match build_goods ps with
      | .error e => .error e
      | .ok gs => .ok (g :: gs)

/-- The `value` of the emitted discount entry (lines 177-180): `VALUE`
discounts are converted to minor units, anything else passes
`discount.get("discount_amount")` through raw (`None` when absent). -/
def discount_value_of (d : PyDict) : Except String JValue :=
  if jEqStr (dictGet d "discount_type") discount_value then
    match pyFloat (dictGetD d "discount_amount" (.int 0)) with
    | .error e => .error e
    | .ok a => .ok (.int (pyRound (a * 100)))
  else
    .ok ((dictGet d "discount_amount").getD .null)

/-- The receipt dict of `create_receipt` (lines 157-174) before the optional
`discounts` entry: id (from `uuid.uuid4()`, passed here as `rid`), cashier
name, goods, delivery contact, the single payment entry, rounding flag. -/
def baseReceipt (cashier : String) (order_id : Int) (client : PyDict)
    (goods : List JValue) (total : ℚ) (payment : PyDict) (rid : String) :
    PyDict :=
  [("id", .str rid),
   ("cashier_name", .str cashier),
   ("goods", .arr goods),
   ("delivery", .obj [("phone", (dictGet client "phone").getD .null)]),
   ("payments", .arr [.obj [
     ("type", (dictGet payment "payment_type").getD .null),
     ("value", .int (pyRound (total * 100))),
     ("label", .str ("Order #" ++ toString order_id)),
     ("payment_system", (dictGet payment "payment_system").getD .null),
     ("rrn", (dictGet payment "payment_system_invoice_id").getD .null),
     ("owner_name", (dictGet client "full_name").getD .null),
     ("signature_required", .bool false)]]),
   ("rounding", .bool false)]

/-- The single element of the `discounts` list (lines 181-188), given the
already-computed discount `value`. -/
def discountsEntry (d : PyDict) (v : JValue) : JValue :=
  .obj [
    ("type", .str "DISCOUNT"),
    ("mode", (dictGet d "discount_type").getD .null),
    ("value", v),
    ("name", .str "Знижка")]

/-- Embedding of the receipt-payload construction of `create_receipt`
(lines 142-188): goods list, base receipt dict, and the optional
`discounts` entry appended when the `discount` dict is truthy (present and
non-empty). -/
def build_receipt (cashier : String) (order_id : Int) (client : PyDict)
    (products : List PyDict) (discount : Option PyDict) (payment : PyDict)
    (rid : String) : Except String PyDict :=
  match build_goods products with
  | .error e => .error e
  | .ok goods =>
    match pyFloat (dictGetD payment "total_amount" (.int 0)) with
    | .error e => .error e
    | .ok total =>
      let base := baseReceipt cashier order_id client goods total payment rid
      match discount with
      | none => .ok base
      | some d =>
        if d.isEmpty then .ok base
        else
          match discount_value_of d with
          | .error e => .error e
          | .ok v => .ok (base ++ [("discounts", .arr [discountsEntry d v])])

/-- Embedding of `CheckboxAPI.cashier_signin` up to the network call:
validation of the credentials, then the built sign-in request. -/
def cashier_signin_dispatch (login password : Option String) :
    Except String Dispatch :=
  if !(strTruthy login) || !(strTruthy password) then
    match _error 400 "Bad request"
        (some (.obj [("detail", .str "login and password are required")])) with
    | .error e => .error e
    | .ok r => .ok (.bad r)
  else
    .ok (.send ⟨"POST", "cashier/signin", [],
      [("login", .str (login.getD "")), ("password", .str (password.getD ""))]⟩)

/-- Embedding of `CheckboxAPI.cashier_signin`. -/
def cashier_signin (login password : Option String) (t : Transport) :
    Except String Result :=
  runDispatch t (cashier_signin_dispatch login password)

/-- Embedding of `CheckboxAPI.open_shift`; `shift_uuid` is the fresh
`str(uuid.uuid4())`. -/
def open_shift (license_key access_token shift_uuid : String) (t : Transport) :
    Except String Result :=
  _request "POST" "shifts"
    [("X-License-Key", license_key), ("Authorization", "Bearer " ++ access_token)]
    [("id", .str shift_uuid)] t

/-- Embedding of `CheckboxAPI.status_shift`. -/
def status_shift (access_token shift_id : String) (t : Transport) :
    Except String Result :=
  _request "GET" ("shifts/" ++ shift_id)
    [("Authorization", "Bearer " ++ access_token)] [] t

/-- Embedding of `CheckboxAPI.close_shift`. -/
def close_shift (license_key access_token shift_id : String) (t : Transport) :
    Except String Result :=
  _request "POST" ("shifts/" ++ shift_id ++ "/close")
    [("X-License-Key", license_key), ("Authorization", "Bearer " ++ access_token)] [] t

/-- Embedding of `CheckboxAPI.create_receipt` up to the network call (lines
190-202): payload construction, then endpoint selection on
`payment.get("payment_method")`; `POSTPAID` without a truthy `relation_id`
returns the bad-request result with no network call; the `POSTPAID` body
drops the `goods` key. -/
def create_receipt_dispatch (access_token cashier : String) (order_id : Int)
    (client : PyDict) (products : List PyDict) (discount : Option PyDict)
    (payment : PyDict) (relation_id : Option String) (rid : String) :
    Except String Dispatch :=
  match build_receipt cashier order_id client products discount payment rid with
  | .error e => .error e
  | .ok receipt =>
    let headers := [("Authorization", "Bearer " ++ access_token)]
    if jEqStr (dictGet payment "payment_method") prepayment then
      .ok (.send ⟨"POST", "prepayment-receipts", headers, receipt⟩)
    else if jEqStr (dictGet payment "payment_method") postpaid then
      if !(strTruthy relation_id) then
        match _error 400 "Bad request"
            (some (.obj [("detail", .str "relation_id is required for POSTPAID")])) with
        | .error e => .error e
        | .ok r => .ok (.bad r)
      else
        .ok (.send ⟨"POST", "prepayment-receipts/" ++ relation_id.getD "", headers,
          receipt.filter (fun kv => !(kv.1 == "goods"))⟩)
    else
      .ok (.send ⟨"POST", "receipts/sell", headers, receipt⟩)

/-- Embedding of `CheckboxAPI.create_receipt`. -/
def create_receipt (access_token cashier : String) (order_id : Int)
    (client : PyDict) (products : List PyDict) (discount : Option PyDict)
    (payment : PyDict) (relation_id : Option String) (rid : String)
    (t : Transport) : Except String Result :=
  runDispatch t
    (create_receipt_dispatch access_token cashier order_id client products
      discount payment relation_id rid)

end CheckboxAPI

/-- Lookup in a JSON object value (`none` on non-objects): used only to
state properties about built payloads. -/
def jGet (j : JValue) (k : String) : Option JValue :=
  match j with
  | .obj fs => dictGet fs k
  | _ => none

/-- Statement-side counterpart of `messageOr` on a whole JSON value:
`data.message` when data is an object with a present, truthy message, else
the fallback string. -/
def jMessageOr (j : JValue) (error : String) : JValue :=
  match j with
  | .obj fs => CheckboxAPI.messageOr fs error
  | _ => .str error

/-- The price inside one entry of the built goods list
(`entry["good"]["price"]`): used to state the money-conversion claims. -/
def goodPrice (g : JValue) : Option JValue :=
  (jGet g "good").bind (fun gg => jGet gg "price")

/-- The `value` of the first entry of the built receipt's `payments` list:
used to state the money-conversion claims. -/
def firstPaymentValue (receipt : PyDict) : Option JValue :=
  match dictGet receipt "payments" with
  | some (.arr (pay :: _)) => jGet pay "value"
  | _ => none

/-- A transport outcome that does not make the `HTTPError` handler of
`_request` call `.get` on a non-dict: whenever a response in the raising
range `[400,600)` carries a JSON body, that body is a JSON object or is
falsy (falsy bodies are replaced by `{}` before `.get`). -/
def SafeTransport : Transport → Prop
  | .response r =>
    400 ≤ r.status_code → r.status_code < 600 →
      match r.body with
      | some (.obj _) => True
      | some j => jTruthy j = false
      | none => True
  | .httpErrorNoResponse _ => True
  | .failure _ => True

/-- The value under key `k` (defaulting to `0` when absent) converts with
Python `float()` without raising: the well-formedness the receipt builder
needs of its monetary fields. -/
def getsNumeric (d : PyDict) (k : String) : Prop :=
  ∃ q, pyFloat (dictGetD d k (.int 0)) = .ok q

/-- Well-formed monetary fields of a `create_receipt` call: every product's
`product_price`, the payment's `total_amount`, and — when a non-empty
`VALUE`-type discount is supplied — its `discount_amount` are values
`float()` accepts. -/
def ReceiptInputsOk (products : List PyDict) (discount : Option PyDict)
    (payment : PyDict) : Prop :=
  (∀ p ∈ products, getsNumeric p "product_price") ∧
  getsNumeric payment "total_amount" ∧
  (∀ d, discount = some d → d ≠ [] →
    jEqStr (dictGet d "discount_type") CheckboxAPI.discount_value = true →
    getsNumeric d "discount_amount")

/-- Whether a discount input was supplied as a non-empty dict (the condition
`if discount:` actually tests: `None` and `{}` are both falsy). -/
def nonemptyDiscountSupplied : Option PyDict → Bool
  | none => false
  | some d => !d.isEmpty

/-- Whether a modelled call returned a `Result` (`true`) or raised a Python
exception (`false`). -/
def returnsResult (x : Except String Result) : Bool :=
  match x with
  | .ok _ => true
  | .error _ => false

open CheckboxAPI

theorem jEqStr_eq_some {j : Option JValue} {s : String} (h : jEqStr j s = true) :
    j = some (.str s) := by
  match j with
  | none => simp [jEqStr] at h
  | some .null | some (.bool _) | some (.int _) | some (.num _)
  | some (.arr _) | some (.obj _) => simp [jEqStr] at h
  | some (.str t) =>
    simp [jEqStr] at h
    subst h
    rfl

theorem error_ok_obj (s : Int) (e : String) (fs : List (String × JValue)) :
    _error s e (some (.obj fs)) =
      .ok { success := false, status := s, error := some e,
            error_description := some (messageOr fs e), data := .obj fs } := by
  cases fs with
  | nil => rfl
  | cons a l => rfl

theorem error_some_ok_inv (s : Int) (e : String) (j : JValue) (res : Result)
    (h : _error s e (some j) = .ok res) :
    res = { success := false, status := s, error := some e,
            data := if jTruthy j then j else .obj [],
            error_description :=
              some (jMessageOr (if jTruthy j then j else .obj []) e) } := by
  by_cases hj : jTruthy j = true
  · match j with
    | .obj fs =>
      rw [error_ok_obj] at h
      cases h
      simp [hj, jMessageOr]
    | .null | .bool _ | .int _ | .num _ | .str _ | .arr _ =>
      simp [_error, hj] at h
  · simp only [Bool.not_eq_true] at hj
    simp [_error, hj, messageOr, dictGet] at h
    cases h.symm
    simp [hj, jMessageOr, messageOr, dictGet]

/-- C1: for every HTTP response processed by a domain operation (every
domain operation funnels every obtained response through `_request`), the
returned `Result` has `success = true` iff the response status code is in
`[200,300)`; and for every 2xx response, `data` is the parsed JSON body
when the body parses as JSON, else `{raw: <body text>}` (both cases are
`parsedBody`). -/
theorem parse_success_iff_2xx (m e : String) (hs : List (String × String))
    (b : PyDict) (r : HttpResponse) (res : Result)
    (h : _request m e hs b (.response r) = .ok res) :
    (res.success = true ↔ (200 ≤ r.status_code ∧ r.status_code < 300)) ∧
    ((200 ≤ r.status_code ∧ r.status_code < 300) → res.data = parsedBody r) := by
  simp only [_request] at h
  by_cases h4 : 400 ≤ r.status_code ∧ r.status_code < 600
  · rw [if_pos h4] at h
    have hres := error_some_ok_inv _ _ _ _ h
    subst hres
    have hno : ¬(200 ≤ r.status_code ∧ r.status_code < 300) := by omega
    constructor
    · simp [hno]
    · intro h2
      exact absurd h2 hno
  · rw [if_neg h4] at h
    simp only [Except.ok.injEq] at h
    subst h
    constructor
    · simp [_parse]
    · intro h2
      rfl

/-- C1 witness: a 200 response with JSON body `{}` satisfies the
hypothesis, and the conclusion evaluates on it. -/
theorem parse_success_iff_2xx_witness :
    (({ success := true, status := 200, data := JValue.obj [] } : Result).success = true ↔
      (200 ≤ (200 : Int) ∧ (200 : Int) < 300)) ∧
    ({ success := true, status := 200, data := JValue.obj [] } : Result).data =
      parsedBody ⟨200, some (.obj []), ""⟩ :=
  ⟨(parse_success_iff_2xx "POST" "cashier/signin" [] [] ⟨200, some (.obj []), ""⟩
      { success := true, status := 200, data := JValue.obj [] } rfl).1,
   (parse_success_iff_2xx "POST" "cashier/signin" [] [] ⟨200, some (.obj []), ""⟩
      { success := true, status := 200, data := JValue.obj [] } rfl).2
     ⟨by decide, by decide⟩⟩

/-- C2 counterexample: a sign-in with valid credentials against a server
whose 422 response body parses as the JSON array `["oops"]` makes `_error`
call `.get` on a list, so the call raises `AttributeError` instead of
returning a `Result`. -/
theorem signin_raises_on_nonobject_error_body :
    cashier_signin (some "user") (some "pw")
      (.response ⟨422, some (.arr [.str "oops"]), "[\"oops\"]"⟩)
      = .error "AttributeError: object has no attribute get" := rfl

/-- C3 counterexample: a 304 response is non-2xx, but `raise_for_status`
only raises for statuses in `[400,600)`, so the result comes from `_parse`
and carries no `error` / `error_description` keys at all — not
`error = "HTTP error"` as the claim states. -/
theorem redirect_status_lacks_error_field :
    status_shift "token" "shift1" (.response ⟨304, some (.obj []), ""⟩)
      = .ok { success := false, status := 304, data := .obj [],
              error := none, error_description := none } := rfl

/-- C4: every network/transport failure in which no response is obtained
yields `success = false`, `status = 400`, `error = "Network error"`,
`error_description = "Network error"` and `data = {detail: <exception
message>}`, whatever operation parameters were used. -/
theorem network_error_result (m e : String) (hs : List (String × String))
    (b : PyDict) (msg : String) :
    _request m e hs b (.failure msg) =
      .ok { success := false, status := 400, error := some "Network error",
            error_description := some (.str "Network error"),
            data := .obj [("detail", .str msg)] } := rfl

/-- C8: sign-in with a falsy login or a falsy password (empty or missing)
synthesizes the bad-request `Result` (status 400, error `"Bad request"`,
`data` carrying the missing-field message) before dispatch — the decision is
`Dispatch.bad`, so no network request is built — and the operation returns
that same `Result` for every transport outcome. -/
theorem signin_validates_credentials (login password : Option String)
    (t : Transport)
    (h : strTruthy login = false ∨ strTruthy password = false) :
    cashier_signin_dispatch login password =
      .ok (.bad { success := false, status := 400, error := some "Bad request",
                  error_description := some (.str "Bad request"),
                  data := .obj [("detail", .str "login and password are required")] }) ∧
    cashier_signin login password t =
      .ok { success := false, status := 400, error := some "Bad request",
            error_description := some (.str "Bad request"),
            data := .obj [("detail", .str "login and password are required")] } := by
  have hcond : (!(strTruthy login) || !(strTruthy password)) = true := by
    cases h with
    | inl h => simp [h]
    | inr h => simp [h]
  have h1 : cashier_signin_dispatch login password =
      .ok (.bad { success := false, status := 400, error := some "Bad request",
                  error_description := some (.str "Bad request"),
                  data := .obj [("detail", .str "login and password are required")] }) := by
    unfold cashier_signin_dispatch
    simp only [hcond]
    rfl
  refine ⟨h1, ?_⟩
  unfold cashier_signin
  rw [h1]
  rfl

/-- C8 witness: empty login, non-empty password, connection refused. -/
theorem signin_validates_credentials_witness :
    cashier_signin (some "") (some "pw") (.failure "connection refused") =
      .ok { success := false, status := 400, error := some "Bad request",
            error_description := some (.str "Bad request"),
            data := .obj [("detail", .str "login and password are required")] } :=
  (signin_validates_credentials (some "") (some "pw")
    (.failure "connection refused") (Or.inl rfl)).2

theorem request_returns (m e : String) (hs : List (String × String))
    (b : PyDict) (t : Transport) (ht : SafeTransport t) :
    returnsResult (_request m e hs b t) = true := by
  cases t with
  | response r =>
    simp only [_request]
    by_cases h4 : 400 ≤ r.status_code ∧ r.status_code < 600
    · rw [if_pos h4]
      simp only [SafeTransport] at ht
      have hb := ht h4.1 h4.2
      cases hbody : r.body with
      | none => simp [parsedBody, hbody, error_ok_obj, returnsResult]
      | some j =>
        rw [hbody] at hb
        match j with
        | .obj fs => simp [parsedBody, hbody, error_ok_obj, returnsResult]
        | .null | .bool _ | .int _ | .num _ | .str _ | .arr _ =>
          simp only [] at hb
          simp [parsedBody, hbody, _error, hb, returnsResult]
    · rw [if_neg h4]
      rfl
  | httpErrorNoResponse msg => rfl
  | failure msg => rfl

theorem runDispatch_returns (t : Transport) (ht : SafeTransport t)
    (d : Except String Dispatch) (hd : ∃ x, d = .ok x) :
    returnsResult (runDispatch t d) = true := by
  obtain ⟨x, rfl⟩ := hd
  cases x with
  | bad r => rfl
  | send req => exact request_returns req.method req.endpoint req.headers req.body t ht

theorem build_goods_ok (products : List PyDict)
    (h : ∀ p ∈ products, getsNumeric p "product_price") :
    ∃ gs, build_goods products = .ok gs := by
  induction products with
  | nil => exact ⟨[], rfl⟩
  | cons p ps ih =>
    obtain ⟨q, hq⟩ := h p (List.mem_cons_self p ps)
    obtain ⟨gs, hgs⟩ := ih fun x hx => h x (List.mem_cons_of_mem p hx)
    have hg : ∃ g, build_good p = .ok g := by
      simp only [build_good, hq]
      exact ⟨_, rfl⟩
    obtain ⟨g, hg⟩ := hg
    exact ⟨g :: gs, by simp only [build_goods, hg, hgs]⟩

theorem build_receipt_ok (cashier : String) (oid : Int) (client : PyDict)
    (products : List PyDict) (discount : Option PyDict) (payment : PyDict)
    (rid : String) (h : ReceiptInputsOk products discount payment) :
    ∃ receipt,
      build_receipt cashier oid client products discount payment rid = .ok receipt := by
  obtain ⟨hp, ⟨qt, hqt⟩, hd⟩ := h
  obtain ⟨gs, hgs⟩ := build_goods_ok products hp
  cases discount with
  | none =>
    exact ⟨baseReceipt cashier oid client gs qt payment rid,
      by simp only [build_receipt, hgs, hqt]⟩
  | some d =>
    cases hde : d.isEmpty with
    | true =>
      exact ⟨baseReceipt cashier oid client gs qt payment rid,
        by simp only [build_receipt, hgs, hqt, hde, if_true]⟩
    | false =>
      have hdne : d ≠ [] := by
        cases d with
        | nil => simp at hde
        | cons a l => simp
      cases hv : jEqStr (dictGet d "discount_type") discount_value with
      | false =>
        refine ⟨baseReceipt cashier oid client gs qt payment rid ++
          [("discounts", .arr [discountsEntry d
            ((dictGet d "discount_amount").getD .null)])], ?_⟩
        simp only [build_receipt, hgs, hqt, hde, discount_value_of, hv,
          Bool.false_eq_true, if_false]
      | true =>
        obtain ⟨qa, hqa⟩ := hd d rfl hdne hv
        refine ⟨baseReceipt cashier oid client gs qt payment rid ++
          [("discounts", .arr [discountsEntry d (.int (pyRound (qa * 100)))])], ?_⟩
        simp only [build_receipt, hgs, hqt, hde, discount_value_of, hv, if_true, hqa,
          Bool.false_eq_true, if_false]

theorem create_receipt_dispatch_ok (tok cashier : String) (oid : Int)
    (client : PyDict) (products : List PyDict) (discount : Option PyDict)
    (payment : PyDict) (relid : Option String) (rid : String)
    (h : ReceiptInputsOk products discount payment) :
    ∃ x, create_receipt_dispatch tok cashier oid client products discount
      payment relid rid = .ok x := by
  obtain ⟨receipt, hb⟩ :=
    build_receipt_ok cashier oid client products discount payment rid h
  simp only [create_receipt_dispatch, hb]
  by_cases h1 : jEqStr (dictGet payment "payment_method") prepayment = true
  · simp [h1]
  · simp only [Bool.not_eq_true] at h1
    by_cases h2 : jEqStr (dictGet payment "payment_method") postpaid = true
    · cases hr : strTruthy relid with
      | false => simp [h1, h2, hr, error_ok_obj]
      | true => simp [h1, h2, hr]
    · simp only [Bool.not_eq_true] at h2
      simp [h1, h2]

/-- C2 (amended): every public operation returns a `Result` and raises no
exception, provided (a) any JSON body of an error response in the raising
range `[400,600)` is a JSON object or falsy (`SafeTransport` — a truthy
non-object JSON error body makes `_error` raise `AttributeError`), and
(b) for create-receipt, the monetary input fields are values `float()`
accepts (`ReceiptInputsOk`).  All three failure kinds (bad request, HTTP
error, network error) are then delivered as `Result` values. -/
theorem operations_return_results (t : Transport) (ht : SafeTransport t) :
    (∀ login password,
      returnsResult (cashier_signin login password t) = true) ∧
    (∀ lk tok u, returnsResult (open_shift lk tok u t) = true) ∧
    (∀ tok sid, returnsResult (status_shift tok sid t) = true) ∧
    (∀ lk tok sid, returnsResult (close_shift lk tok sid t) = true) ∧
    (∀ tok cashier oid client products discount payment relid rid,
      ReceiptInputsOk products discount payment →
      returnsResult (create_receipt tok cashier oid client products discount
        payment relid rid t) = true) := by
  refine ⟨?_, ?_, ?_, ?_, ?_⟩
  · intro login password
    apply runDispatch_returns t ht
    unfold cashier_signin_dispatch
    cases hc : (!(strTruthy login) || !(strTruthy password)) with
    | true => simp [hc, error_ok_obj]
    | false => simp [hc]
  · intro lk tok u
    exact request_returns _ _ _ _ t ht
  · intro tok sid
    exact request_returns _ _ _ _ t ht
  · intro lk tok sid
    exact request_returns _ _ _ _ t ht
  · intro tok cashier oid client products discount payment relid rid h
    exact runDispatch_returns t ht _
      (create_receipt_dispatch_ok tok cashier oid client products discount
        payment relid rid h)

/-- C2 witness: a connection-refused transport is safe, and sign-in with
valid credentials returns a `Result` on it. -/
theorem operations_return_results_witness :
    returnsResult (cashier_signin (some "user") (some "pw")
      (.failure "connection refused")) = true :=
  (operations_return_results (.failure "connection refused")
    True.intro).1 (some "user") (some "pw")

/-- C3 (amended): a response whose status makes `raise_for_status` raise —
exactly the range `[400,600)`, not every non-2xx status — yields, whenever a
`Result` is returned at all, `success = false`, `error = "HTTP error"`,
`status` = the actual status code, `data` = the parsed JSON body when that
value is truthy (replaced by `{}` when falsy, `{raw: <text>}` when the body
is not JSON), and `error_description` = `data.message` when present and
truthy, else `"HTTP error"`.  An `HTTPError` carrying no response falls back
to status 400 with `data = {raw: <exception text>}`.  A non-2xx status
outside `[400,600)` (e.g. 304) yields `success = false` with the actual
status code but no `error`/`error_description` fields at all. -/
theorem http_error_fields :
    (∀ (m e : String) (hs : List (String × String)) (b : PyDict)
        (r : HttpResponse) (res : Result),
      400 ≤ r.status_code → r.status_code < 600 →
      _request m e hs b (.response r) = .ok res →
      res.success = false ∧ res.error = some "HTTP error" ∧
      res.status = r.status_code ∧
      res.data = (if jTruthy (parsedBody r) then parsedBody r else .obj []) ∧
      res.error_description = some (jMessageOr res.data "HTTP error")) ∧
    (∀ (m e : String) (hs : List (String × String)) (b : PyDict)
        (msg : String) (res : Result),
      _request m e hs b (.httpErrorNoResponse msg) = .ok res →
      res.success = false ∧ res.error = some "HTTP error" ∧ res.status = 400 ∧
      res.data = .obj [("raw", .str msg)] ∧
      res.error_description = some (.str "HTTP error")) ∧
    (∀ (m e : String) (hs : List (String × String)) (b : PyDict)
        (r : HttpResponse) (res : Result),
      ¬(400 ≤ r.status_code ∧ r.status_code < 600) →
      ¬(200 ≤ r.status_code ∧ r.status_code < 300) →
      _request m e hs b (.response r) = .ok res →
      res.success = false ∧ res.status = r.status_code ∧
      res.error = none ∧ res.error_description = none) := by
  refine ⟨?_, ?_, ?_⟩
  · intro m e hs b r res h1 h2 h
    simp only [_request] at h
    rw [if_pos ⟨h1, h2⟩] at h
    have hres := error_some_ok_inv _ _ _ _ h
    subst hres
    exact ⟨rfl, rfl, rfl, rfl, rfl⟩
  · intro m e hs b msg res h
    simp only [_request] at h
    rw [error_ok_obj] at h
    simp only [Except.ok.injEq] at h
    subst h
    exact ⟨rfl, rfl, rfl, rfl, rfl⟩
  · intro m e hs b r res h1 h2 h
    simp only [_request] at h
    rw [if_neg h1] at h
    simp only [Except.ok.injEq] at h
    subst h
    refine ⟨?_, rfl, rfl, rfl⟩
    simp [_parse, h2]

/-- C3 witness: a 404 response whose JSON body is
`{"message": "Not found"}` satisfies the first conjunct's hypotheses. -/
theorem http_error_fields_witness :
    ({ success := false, status := 404, error := some "HTTP error",
       error_description := some (.str "Not found"),
       data := .obj [("message", JValue.str "Not found")] } : Result).success = false ∧
    ({ success := false, status := 404, error := some "HTTP error",
       error_description := some (.str "Not found"),
       data := .obj [("message", JValue.str "Not found")] } : Result).error
        = some "HTTP error" ∧
    ({ success := false, status := 404, error := some "HTTP error",
       error_description := some (.str "Not found"),
       data := .obj [("message", JValue.str "Not found")] } : Result).status = 404 ∧
    ({ success := false, status := 404, error := some "HTTP error",
       error_description := some (.str "Not found"),
       data := .obj [("message", JValue.str "Not found")] } : Result).data
      = (if jTruthy (parsedBody ⟨404, some (.obj [("message", .str "Not found")]), "m"⟩)
          then parsedBody ⟨404, some (.obj [("message", .str "Not found")]), "m"⟩
          else .obj []) ∧
    ({ success := false, status := 404, error := some "HTTP error",
       error_description := some (.str "Not found"),
       data := .obj [("message", JValue.str "Not found")] } : Result).error_description
      = some (jMessageOr
          ({ success := false, status := 404, error := some "HTTP error",
             error_description := some (.str "Not found"),
             data := .obj [("message", JValue.str "Not found")] } : Result).data
          "HTTP error") :=
  http_error_fields.1 "GET" "shifts/s" [] []
    ⟨404, some (.obj [("message", .str "Not found")]), "m"⟩
    { success := false, status := 404, error := some "HTTP error",
      error_description := some (.str "Not found"),
      data := .obj [("message", JValue.str "Not found")] }
    (by decide) (by decide) rfl

theorem dictGet_filter_self (l : PyDict) (key : String) :
    dictGet (l.filter (fun kv => !(kv.1 == key))) key = none := by
  induction l with
  | nil => rfl
  | cons kv rest ih =>
    by_cases h : kv.1 = key
    · simp [List.filter_cons, h, ih]
    · simp [List.filter_cons, h, dictGet, ih]

theorem dictGet_filter_ne (l : PyDict) (key k : String) (h : k ≠ key) :
    dictGet (l.filter (fun kv => !(kv.1 == key))) k = dictGet l k := by
  induction l with
  | nil => rfl
  | cons kv rest ih =>
    by_cases hk : kv.1 = key
    · have hne : kv.1 ≠ k := by
        rw [hk]
        exact h.symm
      simp [List.filter_cons, hk, dictGet, hne, ih, Ne.symm h]
    · by_cases hkk : kv.1 = k
      · simp [List.filter_cons, hk, dictGet, hkk, h]
      · simp [List.filter_cons, hk, dictGet, hkk, ih, h]

theorem dictGet_base_discounts (cashier : String) (oid : Int) (client : PyDict)
    (goods : List JValue) (total : ℚ) (payment : PyDict) (rid : String) :
    dictGet (baseReceipt cashier oid client goods total payment rid) "discounts"
      = none := rfl

theorem dictGet_base_goods (cashier : String) (oid : Int) (client : PyDict)
    (goods : List JValue) (total : ℚ) (payment : PyDict) (rid : String)
    (l : PyDict) :
    dictGet (baseReceipt cashier oid client goods total payment rid ++ l) "goods"
      = some (.arr goods) := rfl

theorem dictGet_base_goods' (cashier : String) (oid : Int) (client : PyDict)
    (goods : List JValue) (total : ℚ) (payment : PyDict) (rid : String) :
    dictGet (baseReceipt cashier oid client goods total payment rid) "goods"
      = some (.arr goods) := rfl

theorem dictGet_baseApp_discounts (cashier : String) (oid : Int)
    (client : PyDict) (goods : List JValue) (total : ℚ) (payment : PyDict)
    (rid : String) (v : JValue) :
    dictGet (baseReceipt cashier oid client goods total payment rid ++
      [("discounts", v)]) "discounts" = some v := rfl

theorem firstPaymentValue_base (cashier : String) (oid : Int) (client : PyDict)
    (goods : List JValue) (total : ℚ) (payment : PyDict) (rid : String)
    (l : PyDict) :
    firstPaymentValue (baseReceipt cashier oid client goods total payment rid ++ l)
      = some (.int (pyRound (total * 100))) := rfl

theorem firstPaymentValue_base' (cashier : String) (oid : Int) (client : PyDict)
    (goods : List JValue) (total : ℚ) (payment : PyDict) (rid : String) :
    firstPaymentValue (baseReceipt cashier oid client goods total payment rid)
      = some (.int (pyRound (total * 100))) := rfl

theorem build_receipt_ok_inv (cashier : String) (oid : Int) (client : PyDict)
    (products : List PyDict) (discount : Option PyDict) (payment : PyDict)
    (rid : String) (receipt : PyDict)
    (h : build_receipt cashier oid client products discount payment rid
      = .ok receipt) :
    ∃ goods total, build_goods products = .ok goods ∧
      pyFloat (dictGetD payment "total_amount" (.int 0)) = .ok total ∧
      ((nonemptyDiscountSupplied discount = false ∧
        receipt = baseReceipt cashier oid client goods total payment rid) ∨
       (∃ d v, discount = some d ∧ d ≠ [] ∧ discount_value_of d = .ok v ∧
        receipt = baseReceipt cashier oid client goods total payment rid ++
          [("discounts", .arr [discountsEntry d v])])) := by
  cases hg : build_goods products with
  | error e => simp [build_receipt, hg] at h
  | ok goods =>
    cases hf : pyFloat (dictGetD payment "total_amount" (.int 0)) with
    | error e => simp [build_receipt, hg, hf] at h
    | ok total =>
      refine ⟨goods, total, rfl, rfl, ?_⟩
      cases discount with
      | none =>
        left
        simp only [build_receipt, hg, hf, Except.ok.injEq] at h
        exact ⟨rfl, h.symm⟩
      | some d =>
        simp only [build_receipt, hg, hf] at h
        cases hde : d.isEmpty with
        | true =>
          left
          rw [hde] at h
          simp only [if_true, Except.ok.injEq] at h
          refine ⟨?_, h.symm⟩
          simp [nonemptyDiscountSupplied, hde]
        | false =>
          right
          rw [hde] at h
          simp only [Bool.false_eq_true, if_false] at h
          cases hv : discount_value_of d with
          | error e => rw [hv] at h; simp at h
          | ok v =>
            rw [hv] at h
            simp only [Except.ok.injEq] at h
            refine ⟨d, v, rfl, ?_, hv, h.symm⟩
            cases d with
            | nil => simp at hde
            | cons a l => simp

theorem build_receipt_goods (cashier : String) (oid : Int) (client : PyDict)
    (products : List PyDict) (discount : Option PyDict) (payment : PyDict)
    (rid : String) (receipt : PyDict)
    (h : build_receipt cashier oid client products discount payment rid
      = .ok receipt) :
    ∃ goods, dictGet receipt "goods" = some (.arr goods) := by
  obtain ⟨goods, total, hg, hf, hcase⟩ :=
    build_receipt_ok_inv cashier oid client products discount payment rid receipt h
  cases hcase with
  | inl hc => exact ⟨goods, by rw [hc.2]; rfl⟩
  | inr hc =>
    obtain ⟨d, v, hd, hdne, hv, hr⟩ := hc
    exact ⟨goods, by rw [hr]; rfl⟩

/-- C9 counterexample: an empty discount dict is a supplied discount input
(it is not `None`), but `if discount:` is false on `{}` (Python truthiness),
so the built receipt carries no `discounts` key at all. -/
theorem empty_discount_dict_omits_discounts :
    (build_receipt "c" 7 [] [] (some []) [] "rid0").map
      (fun receipt => dictGet receipt "discounts") = .ok none := rfl

/-- C9 (amended): the built receipt payload contains a `discounts` key iff
the supplied discount is a non-empty dict; a missing discount and a
supplied-but-empty `{}` discount both omit the field entirely. -/
theorem discounts_iff_nonempty_discount (cashier : String) (oid : Int)
    (client : PyDict) (products : List PyDict) (discount : Option PyDict)
    (payment : PyDict) (rid : String) (receipt : PyDict)
    (h : build_receipt cashier oid client products discount payment rid
      = .ok receipt) :
    (dictGet receipt "discounts").isSome = nonemptyDiscountSupplied discount := by
  obtain ⟨goods, total, hg, hf, hcase⟩ :=
    build_receipt_ok_inv cashier oid client products discount payment rid receipt h
  cases hcase with
  | inl hc =>
    rw [hc.2, dictGet_base_discounts, hc.1]
    rfl
  | inr hc =>
    obtain ⟨d, v, hd, hdne, hv, hr⟩ := hc
    subst hd
    rw [hr, dictGet_baseApp_discounts]
    cases d with
    | nil => exact absurd rfl hdne
    | cons a l => rfl

/-- C9 witness: a supplied non-empty `PERCENT` discount yields a receipt
whose `discounts` key is present. -/
theorem discounts_iff_nonempty_discount_witness :
    (dictGet (baseReceipt "c" 1 [] [] 0 [] "r0" ++
      [("discounts", .arr [discountsEntry
        [("discount_type", JValue.str "PERCENT"), ("discount_amount", JValue.int 10)]
        (.int 10)])]) "discounts").isSome
      = nonemptyDiscountSupplied
          (some [("discount_type", JValue.str "PERCENT"),
                 ("discount_amount", JValue.int 10)]) :=
  discounts_iff_nonempty_discount "c" 1 [] []
    (some [("discount_type", .str "PERCENT"), ("discount_amount", .int 10)]) [] "r0"
    (baseReceipt "c" 1 [] [] 0 [] "r0" ++
      [("discounts", .arr [discountsEntry
        [("discount_type", .str "PERCENT"), ("discount_amount", .int 10)] (.int 10)])])
    (by rfl)

/-- C10: for every supplied non-empty discount whose `discount_type` is not
the string `"VALUE"` — `PERCENT`, any unknown string, a non-string, or a
missing type — the emitted discount entry carries the raw `discount_amount`
(no conversion to minor units; JSON `null` when absent) as its `value`, and
the supplied `discount_type` copied verbatim (JSON `null` when absent) as
its `mode`. -/
theorem non_value_discount_passthrough (cashier : String) (oid : Int)
    (client : PyDict) (products : List PyDict) (d : PyDict) (payment : PyDict)
    (rid : String) (receipt : PyDict)
    (hty : jEqStr (dictGet d "discount_type") "VALUE" = false)
    (hne : d ≠ [])
    (h : build_receipt cashier oid client products (some d) payment rid
      = .ok receipt) :
    dictGet receipt "discounts" = some (.arr [.obj [
      ("type", .str "DISCOUNT"),
      ("mode", (dictGet d "discount_type").getD .null),
      ("value", (dictGet d "discount_amount").getD .null),
      ("name", .str "Знижка")]]) := by
  obtain ⟨goods, total, hg, hf, hcase⟩ :=
    build_receipt_ok_inv cashier oid client products (some d) payment rid receipt h
  cases hcase with
  | inl hc =>
    exfalso
    cases d with
    | nil => exact hne rfl
    | cons a l =>
      have := hc.1
      simp [nonemptyDiscountSupplied] at this
  | inr hc =>
    obtain ⟨d', v, hd, hdne, hv, hr⟩ := hc
    injection hd with hd'
    subst hd'
    rw [hr, dictGet_baseApp_discounts]
    have hraw : discount_value_of d = .ok ((dictGet d "discount_amount").getD .null) := by
      simp only [discount_value_of, discount_value, hty, Bool.false_eq_true, if_false]
    rw [hraw] at hv
    injection hv with hv'
    rw [← hv']
    rfl

/-- C10 witness: an unknown discount type `"WEIRD"` with amount `5.5` is
passed through verbatim, with no conversion of the amount. -/
theorem non_value_discount_passthrough_witness :
    dictGet (baseReceipt "c" 1 [] [] 0 [] "r0" ++
      [("discounts", .arr [discountsEntry
        [("discount_type", JValue.str "WEIRD"), ("discount_amount", JValue.num (11/2))]
        (.num (11/2))])]) "discounts"
      = some (.arr [.obj [
          ("type", .str "DISCOUNT"),
          ("mode", (dictGet [("discount_type", JValue.str "WEIRD"),
            ("discount_amount", JValue.num (11/2))] "discount_type").getD .null),
          ("value", (dictGet [("discount_type", JValue.str "WEIRD"),
            ("discount_amount", JValue.num (11/2))] "discount_amount").getD .null),
          ("name", .str "Знижка")]]) :=
  non_value_discount_passthrough "c" 1 [] []
    [("discount_type", .str "WEIRD"), ("discount_amount", .num (11/2))] [] "r0"
    (baseReceipt "c" 1 [] [] 0 [] "r0" ++
      [("discounts", .arr [discountsEntry
        [("discount_type", .str "WEIRD"), ("discount_amount", .num (11/2))]
        (.num (11/2))])])
    rfl (by simp) (by rfl)

/-- C7: create-receipt with `payment_method = "POSTPAID"` and a falsy
relation id (absent or empty) returns the bad-request `Result` with status
400 and the missing-field detail message; the pre-flight decision is
`Dispatch.bad`, so no network request is built, and the returned `Result`
is the same for every transport outcome `t`. -/
theorem postpaid_requires_relation_id (tok cashier : String) (oid : Int)
    (client : PyDict) (products : List PyDict) (discount : Option PyDict)
    (payment : PyDict) (relation_id : Option String) (rid : String)
    (t : Transport) (receipt : PyDict)
    (hpm : jEqStr (dictGet payment "payment_method") "POSTPAID" = true)
    (hrel : strTruthy relation_id = false)
    (hb : build_receipt cashier oid client products discount payment rid
      = .ok receipt) :
    create_receipt_dispatch tok cashier oid client products discount payment
        relation_id rid
      = .ok (.bad { success := false, status := 400, error := some "Bad request",
                    error_description := some (.str "Bad request"),
                    data := .obj [("detail",
                      .str "relation_id is required for POSTPAID")] }) ∧
    create_receipt tok cashier oid client products discount payment relation_id rid t
      = .ok { success := false, status := 400, error := some "Bad request",
              error_description := some (.str "Bad request"),
              data := .obj [("detail",
                .str "relation_id is required for POSTPAID")] } := by
  have hpre : jEqStr (dictGet payment "payment_method") prepayment = false := by
    rw [jEqStr_eq_some hpm]
    rfl
  have h1 : create_receipt_dispatch tok cashier oid client products discount payment
      relation_id rid
      = .ok (.bad { success := false, status := 400, error := some "Bad request",
                    error_description := some (.str "Bad request"),
                    data := .obj [("detail",
                      .str "relation_id is required for POSTPAID")] }) := by
    simp only [create_receipt_dispatch, hb, hpre, Bool.false_eq_true, if_false,
      postpaid, hpm, if_true, hrel, Bool.not_false]
    rfl
  refine ⟨h1, ?_⟩
  unfold create_receipt
  rw [h1]
  rfl

/-- C7 witness: POSTPAID with no relation id, empty client/products, for a
connection-refused transport. -/
theorem postpaid_requires_relation_id_witness :
    create_receipt_dispatch "tok" "c" 1 [] [] none
        [("payment_method", JValue.str "POSTPAID")] none "r0"
      = .ok (.bad { success := false, status := 400, error := some "Bad request",
                    error_description := some (.str "Bad request"),
                    data := .obj [("detail",
                      .str "relation_id is required for POSTPAID")] }) ∧
    create_receipt "tok" "c" 1 [] [] none
        [("payment_method", JValue.str "POSTPAID")] none "r0" (.failure "refused")
      = .ok { success := false, status := 400, error := some "Bad request",
              error_description := some (.str "Bad request"),
              data := .obj [("detail",
                .str "relation_id is required for POSTPAID")] } :=
  postpaid_requires_relation_id "tok" "c" 1 [] [] none
    [("payment_method", .str "POSTPAID")] none "r0" (.failure "refused")
    (baseReceipt "c" 1 [] [] 0 [("payment_method", .str "POSTPAID")] "r0")
    rfl rfl rfl

/-- C5: the endpoint and body of create-receipt are chosen by
`payment_method`: `"PREPAYMENT"` posts the full built receipt (goods
included) to `prepayment-receipts`; `"POSTPAID"` with a non-empty relation
id posts to `prepayment-receipts/<relation_id>` a body equal to the receipt
with the `goods` key removed and every other key unchanged; any other
`payment_method` value posts the full receipt to `receipts/sell`. -/
theorem create_receipt_routing (tok cashier : String) (oid : Int)
    (client : PyDict) (products : List PyDict) (discount : Option PyDict)
    (payment : PyDict) (relation_id : Option String) (rid : String)
    (receipt : PyDict)
    (hb : build_receipt cashier oid client products discount payment rid
      = .ok receipt) :
    (jEqStr (dictGet payment "payment_method") "PREPAYMENT" = true →
      create_receipt_dispatch tok cashier oid client products discount payment
          relation_id rid
        = .ok (.send ⟨"POST", "prepayment-receipts",
            [("Authorization", "Bearer " ++ tok)], receipt⟩) ∧
      (dictGet receipt "goods").isSome = true) ∧
    (∀ s, jEqStr (dictGet payment "payment_method") "POSTPAID" = true →
      relation_id = some s → s ≠ "" →
      create_receipt_dispatch tok cashier oid client products discount payment
          relation_id rid
        = .ok (.send ⟨"POST", "prepayment-receipts/" ++ s,
            [("Authorization", "Bearer " ++ tok)],
            receipt.filter (fun kv => !(kv.1 == "goods"))⟩) ∧
      dictGet (receipt.filter (fun kv => !(kv.1 == "goods"))) "goods" = none ∧
      (∀ k, k ≠ "goods" →
        dictGet (receipt.filter (fun kv => !(kv.1 == "goods"))) k
          = dictGet receipt k)) ∧
    (jEqStr (dictGet payment "payment_method") "PREPAYMENT" = false →
      jEqStr (dictGet payment "payment_method") "POSTPAID" = false →
      create_receipt_dispatch tok cashier oid client products discount payment
          relation_id rid
        = .ok (.send ⟨"POST", "receipts/sell",
            [("Authorization", "Bearer " ++ tok)], receipt⟩)) := by
  refine ⟨?_, ?_, ?_⟩
  · intro h1
    refine ⟨?_, ?_⟩
    · simp only [create_receipt_dispatch, hb, prepayment, h1, if_true]
    · obtain ⟨goods, hgds⟩ :=
        build_receipt_goods cashier oid client products discount payment rid receipt hb
      simp [hgds]
  · intro s h2 hrel hs
    subst hrel
    have hpre : jEqStr (dictGet payment "payment_method") prepayment = false := by
      rw [jEqStr_eq_some h2]
      rfl
    have htr : strTruthy (some s) = true := by
      simp [strTruthy, hs]
    refine ⟨?_, dictGet_filter_self receipt "goods",
      fun k hk => dictGet_filter_ne receipt "goods" k hk⟩
    simp only [create_receipt_dispatch, hb, hpre, Bool.false_eq_true, if_false,
      postpaid, h2, if_true, htr, Bool.not_true]
    rfl
  · intro h1 h2
    simp only [create_receipt_dispatch, hb, prepayment, h1, postpaid, h2,
      Bool.false_eq_true, if_false]

/-- C5 witness: a PREPAYMENT payment with empty client/products dicts
routes to `prepayment-receipts` with the built receipt as body. -/
theorem create_receipt_routing_witness :
    create_receipt_dispatch "tok" "c" 1 [] [] none
        [("payment_method", JValue.str "PREPAYMENT")] none "r0"
      = .ok (.send ⟨"POST", "prepayment-receipts",
          [("Authorization", "Bearer " ++ "tok")],
          baseReceipt "c" 1 [] [] 0 [("payment_method", JValue.str "PREPAYMENT")] "r0"⟩) ∧
    (dictGet (baseReceipt "c" 1 [] [] 0
        [("payment_method", JValue.str "PREPAYMENT")] "r0") "goods").isSome = true :=
  (create_receipt_routing "tok" "c" 1 [] [] none
    [("payment_method", .str "PREPAYMENT")] none "r0"
    (baseReceipt "c" 1 [] [] 0 [("payment_method", .str "PREPAYMENT")] "r0")
    (by rfl)).1 rfl

/-- C6: monetary amounts are converted from decimal currency values to
integer minor units by `round(amount * 100)` (Python 3 banker's rounding),
uniformly for the product price, the payment value, and a `VALUE`-type
discount amount; concretely a price of 19.99 becomes 1999 minor units, a
`{type: VALUE, amount: 5.5}` discount becomes value 550, and a
`{type: PERCENT, amount: 10}` discount keeps value 10 unchanged. -/
theorem money_minor_units :
    (∀ (p : PyDict) (q : ℚ),
      pyFloat (dictGetD p "product_price" (.int 0)) = .ok q →
      (build_good p).map goodPrice = .ok (some (.int (pyRound (q * 100))))) ∧
    (∀ (cashier : String) (oid : Int) (client : PyDict)
        (products : List PyDict) (discount : Option PyDict) (payment : PyDict)
        (rid : String) (receipt : PyDict) (q : ℚ),
      pyFloat (dictGetD payment "total_amount" (.int 0)) = .ok q →
      build_receipt cashier oid client products discount payment rid = .ok receipt →
      firstPaymentValue receipt = some (.int (pyRound (q * 100)))) ∧
    (∀ (d : PyDict) (q : ℚ),
      jEqStr (dictGet d "discount_type") "VALUE" = true →
      pyFloat (dictGetD d "discount_amount" (.int 0)) = .ok q →
      discount_value_of d = .ok (.int (pyRound (q * 100)))) ∧
    ((build_good [("product_price", JValue.num (1999/100))]).map goodPrice
      = .ok (some (.int 1999))) ∧
    (discount_value_of
        [("discount_type", JValue.str "VALUE"), ("discount_amount", JValue.num (11/2))]
      = .ok (.int 550)) ∧
    (discount_value_of
        [("discount_type", JValue.str "PERCENT"), ("discount_amount", JValue.int 10)]
      = .ok (.int 10)) := by
  refine ⟨?_, ?_, ?_, ?_, ?_, ?_⟩
  · intro p q hq
    simp +decide [build_good, hq, goodPrice, jGet, dictGet, Except.map]
  · intro cashier oid client products discount payment rid receipt q hq hbr
    obtain ⟨goods, total, hg, hf, hcase⟩ :=
      build_receipt_ok_inv cashier oid client products discount payment rid receipt hbr
    rw [hq] at hf
    injection hf with htq
    subst htq
    cases hcase with
    | inl hc => rw [hc.2, firstPaymentValue_base']
    | inr hc =>
      obtain ⟨d, v, hd, hdne, hv, hr⟩ := hc
      rw [hr, firstPaymentValue_base]
  · intro d q hty hq
    simp only [discount_value_of, discount_value, hty, if_true, hq]
  · simp +decide [build_good, goodPrice, jGet, dictGet, dictGetD, pyFloat, Except.map]
    norm_num [pyRound, Rat.floor]
  · simp +decide [discount_value_of, discount_value, jEqStr, dictGet, dictGetD, pyFloat]
    norm_num [pyRound, Rat.floor]
  · rfl

/-- C6 witness: the first conjunct applied to a one-key product dict with
price 19.99, then evaluated. -/
theorem money_minor_units_witness :
    (build_good [("product_price", JValue.num (1999/100))]).map goodPrice
      = .ok (some (.int 1999)) := by
  have h := money_minor_units.1 [("product_price", JValue.num (1999/100))]
    (1999/100) rfl
  rw [show pyRound ((1999/100 : ℚ) * 100) = 1999 by norm_num [pyRound, Rat.floor]] at h
  exact h
